import Mathlib

/-!
Verification of the camera plugin of cosmic-connect-core
(src/plugins/camera.rs) against its specification.

The JSON layer models serde_json values; numbers are modelled as
unbounded integers, with the fixed-width ranges of the Rust integer
types enforced at parse time and stated as well-formedness hypotheses
where a theorem needs them.
-/

set_option maxHeartbeats 1000000
set_option maxRecDepth 8192

/-- JSON values as produced and consumed by serde_json in camera.rs.
Every numeric field of the camera protocol is an integer type, so
numbers are modelled as integers. Objects are ordered field lists,
looked up by key. -/
inductive Json where
| null : Json
| bool (b : Bool) : Json
| num (n : Int) : Json
| str (s : String) : Json
| arr (elems : List Json) : Json
| obj (fields : List (String × Json)) : Json

/-- Look up a key in a JSON object field list (first match wins). -/
def jsonLookup (fields : List (String × Json)) (key : String) : Option Json :=
  match fields with
  | [] => none
  | (k, v) :: rest => if k = key then some v else jsonLookup rest key

/-- Keys of a JSON object; empty for non-objects. -/
def Json.keys : Json → List String
| .obj fields => fields.map Prod.fst
| _ => []

/-- Parse a JSON value as a Rust u32, as serde_json does: an integer
number in range, anything else rejected. -/
def parseU32 : Json → Except String Nat
| .num n => if 0 ≤ n ∧ n < 4294967296 then .ok n.toNat else .error "u32 out of range"
| _ => .error "expected u32"

/-- Parse a JSON value as a Rust u64. -/
def parseU64 : Json → Except String Nat
| .num n => if 0 ≤ n ∧ n < 18446744073709551616 then .ok n.toNat else .error "u64 out of range"
| _ => .error "expected u64"

/-- Parse a JSON value as a bool. -/
def parseBool : Json → Except String Bool
| .bool b => .ok b
| _ => .error "expected bool"

/-- Parse a JSON value as a string. -/
def parseString : Json → Except String String
| .str s => .ok s
| _ => .error "expected string"

/-- Parse each element of a list of JSON values. -/
def parseList (p : Json → Except String α) : List Json → Except String (List α)
| [] => .ok []
| j :: js => do
    let a ← p j
    let as ← parseList p js
    .ok (a :: as)

/-- Parse a JSON value as an array with the given element parser. -/
def parseArr (p : Json → Except String α) : Json → Except String (List α)
| .arr js => parseList p js
| _ => .error "expected array"

/-- Fetch and parse a required struct field, as serde derive does:
a missing key is an error. -/
def reqField (o : List (String × Json)) (key : String) (p : Json → Except String α) :
    Except String α :=
  match jsonLookup o key with
  | some j => p j
  | none => .error ("missing field " ++ key)

/-- Fetch and parse an optional struct field, as serde derive does for
an Option typed field: a missing key or an explicit null yields none. -/
def optField (o : List (String × Json)) (key : String) (p : Json → Except String α) :
    Except String (Option α) :=
  match jsonLookup o key with
  | none => .ok none
  | some .null => .ok none
  | some j => (p j).map some

/-- Serialize an optional struct field carrying the serde attribute
skip_serializing_if Option.is_none: absent fields produce no entry. -/
def optEntry (key : String) (o : Option α) (g : α → Json) : List (String × Json) :=
  match o with
  | some v => [(key, g v)]
  | none => []

deriving instance DecidableEq for Except

-- Basic rewriting lemmas for the Except monad and the JSON helpers.

@[simp] theorem except_bind_ok (a : α) (f : α → Except ε β) :
    (Except.ok a : Except ε α) >>= f = f a := rfl

@[simp] theorem except_bind_error (e : ε) (f : α → Except ε β) :
    (Except.error e : Except ε α) >>= f = .error e := rfl

@[simp] theorem except_map_ok (a : α) (f : α → β) :
    (Except.ok a : Except ε α).map f = .ok (f a) := rfl

@[simp] theorem except_map_error (e : ε) (f : α → β) :
    (Except.error e : Except ε α).map f = .error e := rfl

theorem parseU32_ofNat (w : Nat) (hw : w < 4294967296) :
    parseU32 (Json.num (w : Int)) = .ok w := by
  simp [parseU32]
  omega

theorem parseU64_ofNat (w : Nat) (hw : w < 18446744073709551616) :
    parseU64 (Json.num (w : Int)) = .ok w := by
  simp [parseU64]
  omega

@[simp] theorem parseBool_bool (b : Bool) : parseBool (Json.bool b) = .ok b := rfl

@[simp] theorem parseString_str (s : String) : parseString (Json.str s) = .ok s := rfl

/-- Generic list round trip: elementwise inverse parsers invert map. -/
theorem parseList_map (g : α → Json) (p : Json → Except String α) (xs : List α)
    (h : ∀ x ∈ xs, p (g x) = .ok x) :
    parseList p (xs.map g) = .ok xs := by
  induction xs with
  | nil => rfl
  | cons x xs ih =>
      simp only [List.map_cons, parseList, h x (by simp)]
      rw [ih (fun y hy => h y (by simp [hy]))]
      rfl

-- ===========================================================================
-- Data model of src/plugins/camera.rs
-- ===========================================================================

/-- Video resolution (struct Resolution, camera.rs lines 72 to 78). The
Rust fields are u32; the range is tracked by well-formedness below. -/
structure Resolution where
  width : Nat
  height : Nat
deriving DecidableEq

/-- Total pixel count (Resolution.pixels, camera.rs lines 101 to 105).
The Rust code widens both u32 factors to u64 and multiplies there, so
the machine result is the product reduced modulo 2 to the 64. -/
def Resolution.pixels (r : Resolution) : Nat :=
  (r.width * r.height) % 18446744073709551616

def Resolution.toJson (r : Resolution) : Json :=
  .obj [("width", .num (Int.ofNat r.width)), ("height", .num (Int.ofNat r.height))]

def Resolution.fromJson : Json → Except String Resolution
| .obj o => do
    let w ← reqField o "width" parseU32
    let h ← reqField o "height" parseU32
    .ok ⟨w, h⟩
| _ => .error "expected Resolution object"

/-- Rust u32 range bound for both fields of a Resolution. -/
def Resolution.WF (r : Resolution) : Bool :=
  decide (r.width < 4294967296) && decide (r.height < 4294967296)

/-- Camera facing direction (enum CameraFacing, camera.rs lines 108 to 117),
serialized with rename_all lowercase. -/
inductive CameraFacing where
| front
| back
| externalCam
deriving DecidableEq

def CameraFacing.toJson : CameraFacing → Json
| .front => .str "front"
| .back => .str "back"
| .externalCam => .str "external"

def CameraFacing.fromJson : Json → Except String CameraFacing
| .str "front" => .ok .front
| .str "back" => .ok .back
| .str "external" => .ok .externalCam
| _ => .error "expected CameraFacing"

/-- Video frame type (enum FrameType, camera.rs lines 126 to 138), with
discriminants 1, 2, 3 and serde renames sps_pps, iframe, pframe. -/
inductive FrameType where
| spsPps
| iFrame
| pFrame
deriving DecidableEq

/-- FrameType.from_u8 (camera.rs lines 141 to 149). -/
def FrameType.from_u8 (value : Nat) : Option FrameType :=
  if value = 1 then some .spsPps
  else if value = 2 then some .iFrame
  else if value = 3 then some .pFrame
  else none

/-- FrameType.is_keyframe (camera.rs lines 151 to 154). -/
def FrameType.is_keyframe : FrameType → Bool
| .spsPps => true
| .iFrame => true
| .pFrame => false

def FrameType.toJson : FrameType → Json
| .spsPps => .str "sps_pps"
| .iFrame => .str "iframe"
| .pFrame => .str "pframe"

def FrameType.fromJson : Json → Except String FrameType
| .str "sps_pps" => .ok .spsPps
| .str "iframe" => .ok .iFrame
| .str "pframe" => .ok .pFrame
| _ => .error "expected FrameType"

/-- Streaming status (enum StreamingStatus, camera.rs lines 158 to 171),
serialized with rename_all lowercase. -/
inductive StreamingStatus where
| starting
| streaming
| stopping
| stopped
| error
deriving DecidableEq

def StreamingStatus.toJson : StreamingStatus → Json
| .starting => .str "starting"
| .streaming => .str "streaming"
| .stopping => .str "stopping"
| .stopped => .str "stopped"
| .error => .str "error"

def StreamingStatus.fromJson : Json → Except String StreamingStatus
| .str "starting" => .ok .starting
| .str "streaming" => .ok .streaming
| .str "stopping" => .ok .stopping
| .str "stopped" => .ok .stopped
| .str "error" => .ok .error
| _ => .error "expected StreamingStatus"

/-- Information about one camera (struct CameraInfo, camera.rs lines 178
to 191). -/
structure CameraInfo where
  id : Nat
  name : String
  facing : CameraFacing
  max_resolution : Resolution
  resolutions : List Resolution
deriving DecidableEq

def CameraInfo.toJson (c : CameraInfo) : Json :=
  .obj [
    ("id", .num (Int.ofNat c.id)),
    ("name", .str c.name),
    ("facing", c.facing.toJson),
    ("maxResolution", c.max_resolution.toJson),
    ("resolutions", .arr (c.resolutions.map Resolution.toJson))]

def CameraInfo.fromJson : Json → Except String CameraInfo
| .obj o => do
    let i ← reqField o "id" parseU32
    let n ← reqField o "name" parseString
    let f ← reqField o "facing" CameraFacing.fromJson
    let m ← reqField o "maxResolution" Resolution.fromJson
    let rs ← reqField o "resolutions" (parseArr Resolution.fromJson)
    .ok ⟨i, n, f, m, rs⟩
| _ => .error "expected CameraInfo object"

def CameraInfo.WF (c : CameraInfo) : Bool :=
  decide (c.id < 4294967296) && c.max_resolution.WF && c.resolutions.all Resolution.WF

/-- Camera capability advertisement (struct CameraCapability, camera.rs
lines 196 to 215). -/
structure CameraCapability where
  cameras : List CameraInfo
  supported_codecs : List String
  audio_supported : Bool
  max_resolution : Resolution
  max_bitrate : Nat
  max_fps : Nat
deriving DecidableEq

def CameraCapability.toJson (c : CameraCapability) : Json :=
  .obj [
    ("cameras", .arr (c.cameras.map CameraInfo.toJson)),
    ("supportedCodecs", .arr (c.supported_codecs.map Json.str)),
    ("audioSupported", .bool c.audio_supported),
    ("maxResolution", c.max_resolution.toJson),
    ("maxBitrate", .num (Int.ofNat c.max_bitrate)),
    ("maxFps", .num (Int.ofNat c.max_fps))]

def CameraCapability.fromJson : Json → Except String CameraCapability
| .obj o => do
    let cams ← reqField o "cameras" (parseArr CameraInfo.fromJson)
    let codecs ← reqField o "supportedCodecs" (parseArr parseString)
    let audio ← reqField o "audioSupported" parseBool
    let m ← reqField o "maxResolution" Resolution.fromJson
    let br ← reqField o "maxBitrate" parseU32
    let fps ← reqField o "maxFps" parseU32
    .ok ⟨cams, codecs, audio, m, br, fps⟩
| _ => .error "expected CameraCapability object"

def CameraCapability.WF (c : CameraCapability) : Bool :=
  c.cameras.all CameraInfo.WF && c.max_resolution.WF &&
    decide (c.max_bitrate < 4294967296) && decide (c.max_fps < 4294967296)

/-- Request to start camera streaming (struct CameraStart, camera.rs
lines 231 to 244). -/
structure CameraStart where
  camera_id : Nat
  resolution : Resolution
  fps : Nat
  bitrate : Nat
  codec : String
deriving DecidableEq

def CameraStart.toJson (s : CameraStart) : Json :=
  .obj [
    ("cameraId", .num (Int.ofNat s.camera_id)),
    ("resolution", s.resolution.toJson),
    ("fps", .num (Int.ofNat s.fps)),
    ("bitrate", .num (Int.ofNat s.bitrate)),
    ("codec", .str s.codec)]

def CameraStart.fromJson : Json → Except String CameraStart
| .obj o => do
    let i ← reqField o "cameraId" parseU32
    let r ← reqField o "resolution" Resolution.fromJson
    let f ← reqField o "fps" parseU32
    let b ← reqField o "bitrate" parseU32
    let c ← reqField o "codec" parseString
    .ok ⟨i, r, f, b, c⟩
| _ => .error "expected CameraStart object"

def CameraStart.WF (s : CameraStart) : Bool :=
  decide (s.camera_id < 4294967296) && s.resolution.WF &&
    decide (s.fps < 4294967296) && decide (s.bitrate < 4294967296)

/-- Sparse settings patch (struct CameraSettings, camera.rs lines 282 to
302): every field optional, absent fields skipped on serialization. -/
structure CameraSettings where
  camera_id : Option Nat
  resolution : Option Resolution
  fps : Option Nat
  bitrate : Option Nat
  flash : Option Bool
  autofocus : Option Bool
deriving DecidableEq

/-- Wire entries of a settings patch: one entry per present field, in
declaration order, absent fields skipped. -/
def CameraSettings.fields (s : CameraSettings) : List (String × Json) :=
  optEntry "cameraId" s.camera_id (fun v => .num (Int.ofNat v)) ++
    optEntry "resolution" s.resolution Resolution.toJson ++
    optEntry "fps" s.fps (fun v => .num (Int.ofNat v)) ++
    optEntry "bitrate" s.bitrate (fun v => .num (Int.ofNat v)) ++
    optEntry "flash" s.flash Json.bool ++
    optEntry "autofocus" s.autofocus Json.bool

def CameraSettings.toJson (s : CameraSettings) : Json :=
  .obj s.fields

def CameraSettings.fromJson : Json → Except String CameraSettings
| .obj o => do
    let i ← optField o "cameraId" parseU32
    let r ← optField o "resolution" Resolution.fromJson
    let f ← optField o "fps" parseU32
    let b ← optField o "bitrate" parseU32
    let fl ← optField o "flash" parseBool
    let af ← optField o "autofocus" parseBool
    .ok ⟨i, r, f, b, fl, af⟩
| _ => .error "expected CameraSettings object"

def optNatWF (o : Option Nat) : Bool :=
  match o with
  | none => true
  | some v => decide (v < 4294967296)

def optResWF (o : Option Resolution) : Bool :=
  match o with
  | none => true
  | some r => r.WF

def CameraSettings.WF (s : CameraSettings) : Bool :=
  optNatWF s.camera_id && optResWF s.resolution &&
    optNatWF s.fps && optNatWF s.bitrate

/-- The all-fields-absent settings patch (the Default impl). -/
def CameraSettings.empty : CameraSettings := ⟨none, none, none, none, none, none⟩

/-- Camera frame header (struct CameraFrame, camera.rs lines 336 to 349).
The three numeric fields are u64 in Rust. -/
structure CameraFrame where
  frame_type : FrameType
  timestamp_us : Nat
  sequence_number : Nat
  size : Nat
deriving DecidableEq

def CameraFrame.toJson (f : CameraFrame) : Json :=
  .obj [
    ("frameType", f.frame_type.toJson),
    ("timestampUs", .num (Int.ofNat f.timestamp_us)),
    ("sequenceNumber", .num (Int.ofNat f.sequence_number)),
    ("size", .num (Int.ofNat f.size))]

def CameraFrame.fromJson : Json → Except String CameraFrame
| .obj o => do
    let t ← reqField o "frameType" FrameType.fromJson
    let ts ← reqField o "timestampUs" parseU64
    let sq ← reqField o "sequenceNumber" parseU64
    let sz ← reqField o "size" parseU64
    .ok ⟨t, ts, sq, sz⟩
| _ => .error "expected CameraFrame object"

def CameraFrame.WF (f : CameraFrame) : Bool :=
  decide (f.timestamp_us < 18446744073709551616) &&
    decide (f.sequence_number < 18446744073709551616) &&
    decide (f.size < 18446744073709551616)

/-- Camera status update (struct CameraStatus, camera.rs lines 368 to
384): the error field is optional and skipped when absent. -/
structure CameraStatus where
  status : StreamingStatus
  camera_id : Nat
  resolution : Resolution
  fps : Nat
  bitrate : Nat
  error : Option String
deriving DecidableEq

def CameraStatus.toJson (s : CameraStatus) : Json :=
  .obj ([
    ("status", s.status.toJson),
    ("cameraId", .num (Int.ofNat s.camera_id)),
    ("resolution", s.resolution.toJson),
    ("fps", .num (Int.ofNat s.fps)),
    ("bitrate", .num (Int.ofNat s.bitrate))] ++
    optEntry "error" s.error Json.str)

def CameraStatus.fromJson : Json → Except String CameraStatus
| .obj o => do
    let st ← reqField o "status" StreamingStatus.fromJson
    let i ← reqField o "cameraId" parseU32
    let r ← reqField o "resolution" Resolution.fromJson
    let f ← reqField o "fps" parseU32
    let b ← reqField o "bitrate" parseU32
    let e ← optField o "error" parseString
    .ok ⟨st, i, r, f, b, e⟩
| _ => .error "expected CameraStatus object"

def CameraStatus.WF (s : CameraStatus) : Bool :=
  decide (s.camera_id < 4294967296) && s.resolution.WF &&
    decide (s.fps < 4294967296) && decide (s.bitrate < 4294967296)

-- ===========================================================================
-- Packets and the per-kind builders and parsers
-- ===========================================================================

/-- Packet type constants (camera.rs lines 50 to 65). -/
def PACKET_TYPE_CAMERA_CAPABILITY : String := "cconnect.camera.capability"

def PACKET_TYPE_CAMERA_START : String := "cconnect.camera.start"

def PACKET_TYPE_CAMERA_STOP : String := "cconnect.camera.stop"

def PACKET_TYPE_CAMERA_SETTINGS : String := "cconnect.camera.settings"

def PACKET_TYPE_CAMERA_FRAME : String := "cconnect.camera.frame"

def PACKET_TYPE_CAMERA_STATUS : String := "cconnect.camera.status"

/-- Protocol error (crate error module; its source is not under src).
The only variant the camera module produces is the invalid-packet
parse error carrying the serde message. -/
inductive ProtocolError where
| invalidPacket (msg : String)
deriving DecidableEq

/-- Result type of the camera module operations. -/
abbrev CResult (α : Type) := Except ProtocolError α

/-- Wrap a serde parse outcome as the camera module does, turning a
parse message into ProtocolError invalidPacket. -/
def liftParse (r : Except String α) : CResult α :=
  match r with
  | .ok a => .ok a
  | .error e => .error (.invalidPacket e)

/-- Modelled from the spec: struct Packet of src/protocol/packet.rs,
which src/protocol/mod.rs declares but whose source is not under src.
Reconstructed from its callers in camera.rs and the tests: a packet
carries a type tag, a JSON body, and an optional payload size held in
a signed 64 bit field (set by with_payload_size, compare the test
test_camera_frame_serialization asserting payload_size equals
Some 65536). -/
structure Packet where
  packet_type : String
  body : Json
  payload_size : Option Int

/-- Modelled from the spec: Packet new as used by camera.rs, storing
the tag and body with no payload size. -/
def Packet.new (t : String) (b : Json) : Packet := ⟨t, b, none⟩

/-- Modelled from the spec: Packet with_payload_size as used by
CameraFrame to_packet, recording the given signed size. -/
def Packet.with_payload_size (p : Packet) (n : Int) : Packet :=
  { p with payload_size := some n }

/-- Reinterpretation of a u64 value as an i64, the meaning of the Rust
cast in camera.rs line 363 (self.size as i64): two's complement of the
value reduced modulo 2 to the 64. -/
def i64OfU64 (n : Nat) : Int :=
  if n % 18446744073709551616 < 9223372036854775808 then
    Int.ofNat (n % 18446744073709551616)
  else
    Int.ofNat (n % 18446744073709551616) - 18446744073709551616

/-- CameraCapability.from_packet (camera.rs lines 219 to 222). -/
def CameraCapability.from_packet (p : Packet) : CResult CameraCapability :=
  liftParse (CameraCapability.fromJson p.body)

/-- CameraCapability.to_packet (camera.rs lines 225 to 227). -/
def CameraCapability.to_packet (c : CameraCapability) : Packet :=
  Packet.new PACKET_TYPE_CAMERA_CAPABILITY c.toJson

/-- CameraStart.from_packet (camera.rs lines 259 to 262). -/
def CameraStart.from_packet (p : Packet) : CResult CameraStart :=
  liftParse (CameraStart.fromJson p.body)

/-- CameraStart.to_packet (camera.rs lines 265 to 267). -/
def CameraStart.to_packet (s : CameraStart) : Packet :=
  Packet.new PACKET_TYPE_CAMERA_START s.toJson

/-- CameraStop.to_packet (camera.rs lines 276 to 278): empty body. -/
def CameraStop.to_packet : Packet :=
  Packet.new PACKET_TYPE_CAMERA_STOP (.obj [])

/-- CameraSettings.from_packet (camera.rs lines 322 to 325). -/
def CameraSettings.from_packet (p : Packet) : CResult CameraSettings :=
  liftParse (CameraSettings.fromJson p.body)

/-- CameraSettings.to_packet (camera.rs lines 328 to 330). -/
def CameraSettings.to_packet (s : CameraSettings) : Packet :=
  Packet.new PACKET_TYPE_CAMERA_SETTINGS s.toJson

/-- CameraFrame.from_packet (camera.rs lines 353 to 356). -/
def CameraFrame.from_packet (p : Packet) : CResult CameraFrame :=
  liftParse (CameraFrame.fromJson p.body)

/-- CameraFrame.to_packet (camera.rs lines 361 to 364): serializes the
header and records the size field, cast to i64, as the payload size. -/
def CameraFrame.to_packet (f : CameraFrame) : Packet :=
  (Packet.new PACKET_TYPE_CAMERA_FRAME f.toJson).with_payload_size (i64OfU64 f.size)

/-- CameraStatus.from_packet (camera.rs lines 424 to 427). -/
def CameraStatus.from_packet (p : Packet) : CResult CameraStatus :=
  liftParse (CameraStatus.fromJson p.body)

/-- CameraStatus.to_packet (camera.rs lines 430 to 432). -/
def CameraStatus.to_packet (s : CameraStatus) : Packet :=
  Packet.new PACKET_TYPE_CAMERA_STATUS s.toJson

-- ===========================================================================
-- The camera plugin state machine (struct CameraPlugin, camera.rs 443 to 609)
-- ===========================================================================

/-- Session state of the camera plugin (camera.rs lines 443 to 454). -/
structure CameraPlugin where
  name : String
  remote_capabilities : Option CameraCapability
  streaming_status : Option CameraStatus
  is_streaming : Bool
  current_settings : Option CameraStart
deriving DecidableEq

/-- CameraPlugin.new (camera.rs lines 464 to 472). -/
def CameraPlugin.new : CameraPlugin :=
  ⟨"camera", none, none, false, none⟩

/-- CameraPlugin.has_camera (camera.rs lines 480 to 485). -/
def CameraPlugin.has_camera (p : CameraPlugin) : Bool :=
  match p.remote_capabilities with
  | some c => !c.cameras.isEmpty
  | none => false

/-- CameraPlugin.create_start_packet (camera.rs lines 508 to 510):
takes the plugin by shared reference and only builds the packet. -/
def CameraPlugin.create_start_packet (_p : CameraPlugin) (settings : CameraStart) : Packet :=
  settings.to_packet

/-- CameraPlugin.create_stop_packet (camera.rs lines 513 to 515). -/
def CameraPlugin.create_stop_packet (_p : CameraPlugin) : Packet :=
  CameraStop.to_packet

/-- CameraPlugin.create_settings_packet (camera.rs lines 518 to 520). -/
def CameraPlugin.create_settings_packet (_p : CameraPlugin) (settings : CameraSettings) : Packet :=
  settings.to_packet

/-- CameraPlugin.handle_capability (camera.rs lines 523 to 532): a parse
failure returns early through the question mark operator, leaving the
state untouched; success replaces the stored capability wholesale. -/
def CameraPlugin.handle_capability (p : CameraPlugin) (pk : Packet) :
    CameraPlugin × CResult Unit :=
  match CameraCapability.from_packet pk with
  | .error e => (p, .error e)
  | .ok cap => ({ p with remote_capabilities := some cap }, .ok ())

/-- CameraPlugin.handle_status (camera.rs lines 535 to 545): a parse
failure returns early; success sets is_streaming from the message and
replaces the stored status wholesale. -/
def CameraPlugin.handle_status (p : CameraPlugin) (pk : Packet) :
    CameraPlugin × CResult Unit :=
  match CameraStatus.from_packet pk with
  | .error e => (p, .error e)
  | .ok st =>
      ({ p with
          is_streaming := st.status == StreamingStatus.streaming,
          streaming_status := some st }, .ok ())

/-- CameraPlugin.handle_frame (camera.rs lines 548 to 555): a pure
parse returning the frame header; no field of the plugin is written. -/
def CameraPlugin.handle_frame (p : CameraPlugin) (pk : Packet) :
    CameraPlugin × CResult CameraFrame :=
  (p, CameraFrame.from_packet pk)

/-- CameraPlugin.handle_packet (camera.rs lines 580 to 597): dispatch on
the packet type tag; each arm forwards the handler result through the
question mark operator, so a parse failure is returned to the caller;
unknown types are logged and ignored. -/
def CameraPlugin.handle_packet (p : CameraPlugin) (pk : Packet) :
    CameraPlugin × CResult Unit :=
  if pk.packet_type = PACKET_TYPE_CAMERA_CAPABILITY then
    p.handle_capability pk
  else if pk.packet_type = PACKET_TYPE_CAMERA_STATUS then
    p.handle_status pk
  else if pk.packet_type = PACKET_TYPE_CAMERA_FRAME then
    let r := p.handle_frame pk
    (r.1, r.2.map fun _ => ())
  else
    (p, .ok ())

/-- CameraPlugin.initialize (camera.rs lines 599 to 602): logs only. -/
def CameraPlugin.initPlugin (p : CameraPlugin) : CameraPlugin × CResult Unit :=
  (p, .ok ())

/-- CameraPlugin.shutdown (camera.rs lines 604 to 609): forces
is_streaming to false and clears the stored status. -/
def CameraPlugin.shutdown (p : CameraPlugin) : CameraPlugin × CResult Unit :=
  ({ p with is_streaming := false, streaming_status := none }, .ok ())

/-- One externally invokable operation on the plugin. The packet
builders take the plugin by shared reference in Rust, so they cannot
write any field. -/
inductive PluginOp where
| handle (pk : Packet)
| initOp
| shutdownOp
| createStart (s : CameraStart)
| createStop
| createSettings (s : CameraSettings)

/-- State effect of one operation. -/
def CameraPlugin.applyOp (p : CameraPlugin) : PluginOp → CameraPlugin
| .handle pk => (p.handle_packet pk).1
| .initOp => (p.initPlugin).1
| .shutdownOp => (p.shutdown).1
| .createStart _ => p
| .createStop => p
| .createSettings _ => p

/-- Run a sequence of operations from a starting state. -/
def CameraPlugin.run (p : CameraPlugin) : List PluginOp → CameraPlugin
| [] => p
| op :: ops => (p.applyOp op).run ops

-- ===========================================================================
-- H.264 decoder state machine
-- ===========================================================================

/-- Annex B start code validity of a NAL buffer (spec section 4.4): at
least five bytes beginning with a three or four byte start code. -/
def is_valid_nal (buf : List Nat) : Bool :=
  decide (5 ≤ buf.length) &&
    (List.isPrefixOf [0, 0, 1] buf || List.isPrefixOf [0, 0, 0, 1] buf)

/-- Decoder life cycle states (spec section 4.5). -/
inductive DecoderState where
| uninitialized
| configured
| streaming
| faulted
deriving DecidableEq

/-- Decoder error taxonomy (spec section 7). -/
inductive DecoderError where
| needMoreData
| corruptData
| decodeFault
| invalidConfig
deriving DecidableEq

/-- A decoded raw video frame. -/
structure DecodedVideoFrame where
  data : List Nat
  timestamp_us : Nat
deriving DecidableEq

/-- Possible answers of the underlying H.264 decode core for one
structurally valid buffer: a picture, no picture yet, or an
irrecoverable bitstream inconsistency. The core is an external
collaborator, so a decode step takes its answer as an input. -/
inductive CoreResult where
| picture (frame : DecodedVideoFrame)
| noFrameYet
| fault
deriving DecidableEq

/-- Modelled from the spec: struct H264Decoder of
src/video/h264_decoder.rs, which the integration tests exercise but
whose source is not under src. State per spec section 4.5: life cycle
state, monotonic decoded frame counter, stored dimensions. -/
structure H264Decoder where
  state : DecoderState
  framesDecoded : Nat
  dims : Option (Nat × Nat)
deriving DecidableEq

/-- Modelled from the spec: H264Decoder new starts Uninitialized with a
zero counter and no dimensions. -/
def H264Decoder.new : H264Decoder :=
  ⟨.uninitialized, 0, none⟩

/-- Modelled from the spec: isInitialized holds exactly when the state
has reached Configured. -/
def H264Decoder.is_initialized (d : H264Decoder) : Bool :=
  d.state != DecoderState.uninitialized

/-- Modelled from the spec: the monotonic decoded frame counter. -/
def H264Decoder.frames_decoded (d : H264Decoder) : Nat :=
  d.framesDecoded

/-- Modelled from the spec: dimensions are present exactly when stored
by a successful configure. -/
def H264Decoder.dimensions (d : H264Decoder) : Option (Nat × Nat) :=
  d.dims

/-- Modelled from the spec: decode (spec section 4.5). Uninitialized
fails NeedMoreData with the state unchanged; Faulted refuses to decode
until reset; a structurally invalid buffer fails CorruptData with the
state unchanged; otherwise the answer of the underlying core decides
the outcome. -/
def H264Decoder.decode (d : H264Decoder) (buf : List Nat) (_ts : Nat) (core : CoreResult) :
    H264Decoder × Except DecoderError (Option DecodedVideoFrame) :=
  match d.state with
  | .uninitialized => (d, .error .needMoreData)
  | .faulted => (d, .error .decodeFault)
  | _ =>
      if is_valid_nal buf then
        match core with
        | .picture f =>
            ({ d with state := .streaming, framesDecoded := d.framesDecoded + 1 },
              .ok (some f))
        | .noFrameYet => (d, .ok none)
        | .fault => ({ d with state := .faulted }, .error .decodeFault)
      else
        (d, .error .corruptData)

/-- Modelled from the spec: reset always succeeds and returns to
Uninitialized, clearing the counter and the dimensions. -/
def H264Decoder.reset (_d : H264Decoder) : H264Decoder :=
  H264Decoder.new



-- ===========================================================================
-- Round trip lemmas for the wire format
-- ===========================================================================

@[simp] theorem jsonLookup_append (A B : List (String × Json)) (k : String) :
    jsonLookup (A ++ B) k =
      match jsonLookup A k with
      | some v => some v
      | none => jsonLookup B k := by
  induction A with
  | nil => simp [jsonLookup]
  | cons kv rest ih =>
      obtain ⟨k0, v0⟩ := kv
      by_cases hk : k0 = k
      · simp [jsonLookup, hk]
      · simp [jsonLookup, hk, ih]

@[simp] theorem jsonLookup_optEntry_same (k : String) (o : Option α) (g : α → Json) :
    jsonLookup (optEntry k o g) k = o.map g := by
  cases o <;> simp [optEntry, jsonLookup]

@[simp] theorem jsonLookup_optEntry_ne (k k0 : String) (o : Option α) (g : α → Json)
    (h : ¬ k = k0) : jsonLookup (optEntry k o g) k0 = none := by
  cases o <;> simp [optEntry, jsonLookup, h]

theorem optField_lookup_none (o : List (String × Json)) (k : String)
    (p : Json → Except String α) (hl : jsonLookup o k = none) :
    optField o k p = .ok none := by
  unfold optField
  rw [hl]

theorem optField_lookup_some (o : List (String × Json)) (k : String)
    (p : Json → Except String α) (j : Json) (a : α)
    (hl : jsonLookup o k = some j) (hj : j ≠ Json.null) (hp : p j = .ok a) :
    optField o k p = .ok (some a) := by
  unfold optField
  rw [hl]
  cases j <;> simp_all

theorem optField_u32_entry (o : List (String × Json)) (k : String) (ci : Option Nat)
    (hl : jsonLookup o k = Option.map (fun v : Nat => Json.num (v : Int)) ci)
    (hwf : optNatWF ci = true) : optField o k parseU32 = .ok ci := by
  cases ci with
  | none => exact optField_lookup_none o k _ (by simpa using hl)
  | some v =>
      simp only [optNatWF, decide_eq_true_eq] at hwf
      exact optField_lookup_some o k _ _ v (by simpa using hl) (by simp)
        (parseU32_ofNat v hwf)

theorem optField_bool_entry (o : List (String × Json)) (k : String) (b : Option Bool)
    (hl : jsonLookup o k = Option.map Json.bool b) :
    optField o k parseBool = .ok b := by
  cases b with
  | none => exact optField_lookup_none o k _ (by simpa using hl)
  | some v =>
      exact optField_lookup_some o k _ _ v (by simpa using hl) (by simp) (by simp)

theorem optField_str_entry (o : List (String × Json)) (k : String) (s : Option String)
    (hl : jsonLookup o k = Option.map Json.str s) :
    optField o k parseString = .ok s := by
  cases s with
  | none => exact optField_lookup_none o k _ (by simpa using hl)
  | some v =>
      exact optField_lookup_some o k _ _ v (by simpa using hl) (by simp) (by simp)

@[simp] theorem cameraFacing_rt (f : CameraFacing) :
    CameraFacing.fromJson f.toJson = .ok f := by
  cases f <;> rfl

@[simp] theorem frameType_rt (t : FrameType) :
    FrameType.fromJson t.toJson = .ok t := by
  cases t <;> rfl

@[simp] theorem streamingStatus_rt (s : StreamingStatus) :
    StreamingStatus.fromJson s.toJson = .ok s := by
  cases s <;> rfl

theorem resolution_rt (r : Resolution) (h : r.WF = true) :
    Resolution.fromJson r.toJson = .ok r := by
  obtain ⟨w, hgt⟩ := r
  simp only [Resolution.WF, Bool.and_eq_true, decide_eq_true_eq] at h
  simp [Resolution.toJson, Resolution.fromJson, reqField, jsonLookup,
    parseU32_ofNat _ h.1, parseU32_ofNat _ h.2]

theorem cameraInfo_rt (c : CameraInfo) (h : c.WF = true) :
    CameraInfo.fromJson c.toJson = .ok c := by
  obtain ⟨i, n, f, m, rs⟩ := c
  simp only [CameraInfo.WF, Bool.and_eq_true, decide_eq_true_eq,
    List.all_eq_true] at h
  obtain ⟨⟨hi, hm⟩, hrs⟩ := h
  simp [CameraInfo.toJson, CameraInfo.fromJson, reqField, jsonLookup,
    parseU32_ofNat _ hi, resolution_rt _ hm, parseArr,
    parseList_map _ _ _ (fun r hr => resolution_rt r (hrs r hr))]

theorem cameraCapability_rt (c : CameraCapability) (h : c.WF = true) :
    CameraCapability.fromJson c.toJson = .ok c := by
  obtain ⟨cams, codecs, audio, m, br, fps⟩ := c
  simp only [CameraCapability.WF, Bool.and_eq_true, decide_eq_true_eq,
    List.all_eq_true] at h
  obtain ⟨⟨⟨hcams, hm⟩, hbr⟩, hfps⟩ := h
  simp [CameraCapability.toJson, CameraCapability.fromJson, reqField, jsonLookup,
    parseArr, parseList_map _ _ _ (fun x hx => cameraInfo_rt x (hcams x hx)),
    parseList_map _ _ _ (fun s _ => (parseString_str s : parseString (Json.str s) = .ok s)),
    resolution_rt _ hm, parseU32_ofNat _ hbr, parseU32_ofNat _ hfps]

theorem cameraStart_rt (s : CameraStart) (h : s.WF = true) :
    CameraStart.fromJson s.toJson = .ok s := by
  obtain ⟨i, r, f, b, c⟩ := s
  simp only [CameraStart.WF, Bool.and_eq_true, decide_eq_true_eq] at h
  obtain ⟨⟨⟨hi, hr⟩, hf⟩, hb⟩ := h
  simp [CameraStart.toJson, CameraStart.fromJson, reqField, jsonLookup,
    parseU32_ofNat _ hi, resolution_rt _ hr, parseU32_ofNat _ hf,
    parseU32_ofNat _ hb]

theorem cameraFrame_rt (f : CameraFrame) (h : f.WF = true) :
    CameraFrame.fromJson f.toJson = .ok f := by
  obtain ⟨t, ts, sq, sz⟩ := f
  simp only [CameraFrame.WF, Bool.and_eq_true, decide_eq_true_eq] at h
  obtain ⟨⟨hts, hsq⟩, hsz⟩ := h
  simp [CameraFrame.toJson, CameraFrame.fromJson, reqField, jsonLookup,
    parseU64_ofNat _ hts, parseU64_ofNat _ hsq, parseU64_ofNat _ hsz]

theorem cameraStatus_rt (s : CameraStatus) (h : s.WF = true) :
    CameraStatus.fromJson s.toJson = .ok s := by
  obtain ⟨st, i, r, f, b, e⟩ := s
  simp only [CameraStatus.WF, Bool.and_eq_true, decide_eq_true_eq] at h
  obtain ⟨⟨⟨hi, hr⟩, hf⟩, hb⟩ := h
  have he : optField ([("status", st.toJson), ("cameraId", Json.num (i : Int)),
      ("resolution", r.toJson), ("fps", Json.num (f : Int)),
      ("bitrate", Json.num (b : Int))] ++ optEntry "error" e Json.str)
      "error" parseString = .ok e := by
    apply optField_str_entry
    cases e <;> simp [jsonLookup]
  simp [CameraStatus.toJson, CameraStatus.fromJson, reqField, jsonLookup,
    parseU32_ofNat _ hi, resolution_rt _ hr, parseU32_ofNat _ hf,
    parseU32_ofNat _ hb] at he ⊢
  rw [he]
  rfl

theorem optField_res_entry (o : List (String × Json)) (k : String) (re : Option Resolution)
    (hwf : optResWF re = true)
    (hl : jsonLookup o k = Option.map Resolution.toJson re) :
    optField o k Resolution.fromJson = .ok re := by
  cases re with
  | none => exact optField_lookup_none o k _ (by simpa using hl)
  | some r =>
      exact optField_lookup_some o k _ _ r (by simpa using hl)
        (by simp [Resolution.toJson])
        (resolution_rt r (by simpa [optResWF] using hwf))

theorem cameraSettings_rt (s : CameraSettings) (h : s.WF = true) :
    CameraSettings.fromJson s.toJson = .ok s := by
  obtain ⟨ci, re, fp, bi, fl, af⟩ := s
  simp only [CameraSettings.WF, Bool.and_eq_true] at h
  obtain ⟨⟨⟨hci, hre⟩, hfp⟩, hbi⟩ := h
  have l1 : jsonLookup (CameraSettings.fields ⟨ci, re, fp, bi, fl, af⟩) "cameraId"
      = Option.map (fun v : Nat => Json.num (v : Int)) ci := by
    cases ci <;> simp [CameraSettings.fields]
  have l2 : jsonLookup (CameraSettings.fields ⟨ci, re, fp, bi, fl, af⟩) "resolution"
      = Option.map Resolution.toJson re := by
    cases re <;> simp [CameraSettings.fields]
  have l3 : jsonLookup (CameraSettings.fields ⟨ci, re, fp, bi, fl, af⟩) "fps"
      = Option.map (fun v : Nat => Json.num (v : Int)) fp := by
    cases fp <;> simp [CameraSettings.fields]
  have l4 : jsonLookup (CameraSettings.fields ⟨ci, re, fp, bi, fl, af⟩) "bitrate"
      = Option.map (fun v : Nat => Json.num (v : Int)) bi := by
    cases bi <;> simp [CameraSettings.fields]
  have l5 : jsonLookup (CameraSettings.fields ⟨ci, re, fp, bi, fl, af⟩) "flash"
      = Option.map Json.bool fl := by
    cases fl <;> simp [CameraSettings.fields]
  have l6 : jsonLookup (CameraSettings.fields ⟨ci, re, fp, bi, fl, af⟩) "autofocus"
      = Option.map Json.bool af := by
    cases af <;> simp [CameraSettings.fields]
  simp only [CameraSettings.toJson, CameraSettings.fromJson,
    optField_u32_entry _ _ ci l1 hci,
    optField_res_entry _ _ re hre l2,
    optField_u32_entry _ _ fp l3 hfp,
    optField_u32_entry _ _ bi l4 hbi,
    optField_bool_entry _ _ fl l5,
    optField_bool_entry _ _ af l6,
    except_bind_ok]

@[simp] theorem liftParse_ok (a : α) : liftParse (Except.ok a) = .ok a := rfl

@[simp] theorem liftParse_error (e : String) :
    liftParse (α := α) (Except.error e) = .error (.invalidPacket e) := rfl

theorem pair_mem_optEntry (k0 : String) (o : Option α) (g : α → Json)
    (kv : String × Json) :
    kv ∈ optEntry k0 o g ↔ ∃ v, o = some v ∧ kv = (k0, g v) := by
  cases o <;> simp [optEntry]

-- Sample concrete protocol values, used by the witnesses. They follow
-- the values exercised by the unit tests of camera.rs.

def resW : Resolution := ⟨1280, 720⟩

def camInfoW : CameraInfo :=
  ⟨0, "Back Camera", .back, ⟨1920, 1080⟩, [⟨1920, 1080⟩, ⟨1280, 720⟩]⟩

def capW : CameraCapability :=
  ⟨[camInfoW], ["h264"], false, ⟨1920, 1080⟩, 8000, 60⟩

def startW : CameraStart := ⟨0, resW, 30, 2000, "h264"⟩

def settingsW : CameraSettings := ⟨some 1, some resW, none, none, some true, none⟩

def statusW : CameraStatus := ⟨.streaming, 0, resW, 30, 2000, none⟩

def frameW : CameraFrame := ⟨.iFrame, 1234567890, 42, 65536⟩

-- ===========================================================================
-- Claims
-- ===========================================================================

/-- Claim C1: building a packet with to_packet and parsing it back with
from_packet returns the original CameraCapability, CameraStart,
CameraSettings, CameraStatus or CameraFrame value; absent
CameraSettings fields are omitted from the wire form entirely, and the
all-fields-absent CameraSettings value round-trips as a valid no-op
with an empty wire body. -/
theorem C1_roundtrip :
    (∀ c : CameraCapability, c.WF = true →
      CameraCapability.from_packet c.to_packet = .ok c) ∧
    (∀ s : CameraStart, s.WF = true →
      CameraStart.from_packet s.to_packet = .ok s) ∧
    (∀ s : CameraSettings, s.WF = true →
      CameraSettings.from_packet s.to_packet = .ok s) ∧
    (∀ s : CameraStatus, s.WF = true →
      CameraStatus.from_packet s.to_packet = .ok s) ∧
    (∀ f : CameraFrame, f.WF = true →
      CameraFrame.from_packet f.to_packet = .ok f) ∧
    (∀ s : CameraSettings,
      (s.camera_id = none → "cameraId" ∉ (s.to_packet).body.keys) ∧
      (s.resolution = none → "resolution" ∉ (s.to_packet).body.keys) ∧
      (s.fps = none → "fps" ∉ (s.to_packet).body.keys) ∧
      (s.bitrate = none → "bitrate" ∉ (s.to_packet).body.keys) ∧
      (s.flash = none → "flash" ∉ (s.to_packet).body.keys) ∧
      (s.autofocus = none → "autofocus" ∉ (s.to_packet).body.keys)) ∧
    (CameraSettings.from_packet CameraSettings.empty.to_packet = .ok CameraSettings.empty ∧
      CameraSettings.empty.to_packet.body.keys = []) := by
  refine ⟨?_, ?_, ?_, ?_, ?_, ?_, ?_, ?_⟩
  · intro c h
    show liftParse (CameraCapability.fromJson c.toJson) = .ok c
    rw [cameraCapability_rt c h, liftParse_ok]
  · intro s h
    show liftParse (CameraStart.fromJson s.toJson) = .ok s
    rw [cameraStart_rt s h, liftParse_ok]
  · intro s h
    show liftParse (CameraSettings.fromJson s.toJson) = .ok s
    rw [cameraSettings_rt s h, liftParse_ok]
  · intro s h
    show liftParse (CameraStatus.fromJson s.toJson) = .ok s
    rw [cameraStatus_rt s h, liftParse_ok]
  · intro f h
    show liftParse (CameraFrame.fromJson f.toJson) = .ok f
    rw [cameraFrame_rt f h, liftParse_ok]
  · intro s
    refine ⟨?_, ?_, ?_, ?_, ?_, ?_⟩ <;>
      (intro h
       simp [CameraSettings.to_packet, Packet.new, CameraSettings.toJson,
         Json.keys, CameraSettings.fields, h, pair_mem_optEntry])
  · rfl
  · rfl

/-- Claim C1 witness: the round trips at the concrete sample values,
with every well-formedness hypothesis discharged by evaluation. -/
theorem C1_roundtrip_witness :
    CameraCapability.from_packet capW.to_packet = .ok capW ∧
    CameraStart.from_packet startW.to_packet = .ok startW ∧
    CameraSettings.from_packet settingsW.to_packet = .ok settingsW ∧
    CameraStatus.from_packet statusW.to_packet = .ok statusW ∧
    CameraFrame.from_packet frameW.to_packet = .ok frameW ∧
    "fps" ∉ (settingsW.to_packet).body.keys :=
  ⟨C1_roundtrip.1 capW (by decide),
   C1_roundtrip.2.1 startW (by decide),
   C1_roundtrip.2.2.1 settingsW (by decide),
   C1_roundtrip.2.2.2.1 statusW (by decide),
   C1_roundtrip.2.2.2.2.1 frameW (by decide),
   (C1_roundtrip.2.2.2.2.2.1 settingsW).2.2.1 rfl⟩

deriving instance Fintype for FrameType

theorem streamingStatus_fromJson_num (n : Int) :
    StreamingStatus.fromJson (.num n) = .error "expected StreamingStatus" := rfl

/-- The malformed status packet used to refute and witness claim C2:
a status packet with an empty body. -/
def pkBadStatus : Packet := Packet.new PACKET_TYPE_CAMERA_STATUS (Json.obj [])

/-- Claim C2 counterexample: on a status packet with an empty body the
parser fails, and handle_packet does not complete with success while
discarding the failure, as the claim states: it returns the error to
its caller (the question mark operator in each dispatch arm of
camera.rs lines 580 to 597 propagates the parse failure). -/
theorem C2_counterexample :
    (CameraStatus.from_packet pkBadStatus).isOk = false ∧
    ((CameraPlugin.new.handle_packet pkBadStatus).2).isOk = false ∧
    (CameraPlugin.new.handle_packet pkBadStatus).1 = CameraPlugin.new := by
  refine ⟨rfl, rfl, rfl⟩

/-- Claim C2 (amended): a camera control packet of kind capability or
status whose body is missing required fields or has mistyped fields
makes the per-kind parser fail with the invalid-message error, and the
stored session state is left unchanged; handle_packet returns the
parse failure to its caller (who logs and discards it) instead of
swallowing it itself. -/
theorem C2_parse_failure_isolated :
    (∀ (pk : Packet) (o : List (String × Json)), pk.body = Json.obj o →
      jsonLookup o "status" = none →
      ∃ m, CameraStatus.from_packet pk = .error (.invalidPacket m)) ∧
    (∀ (pk : Packet) (o : List (String × Json)) (n : Int), pk.body = Json.obj o →
      jsonLookup o "status" = some (Json.num n) →
      ∃ m, CameraStatus.from_packet pk = .error (.invalidPacket m)) ∧
    (∀ (pk : Packet) (o : List (String × Json)), pk.body = Json.obj o →
      jsonLookup o "cameras" = none →
      ∃ m, CameraCapability.from_packet pk = .error (.invalidPacket m)) ∧
    (∀ (p : CameraPlugin) (pk : Packet) (e : ProtocolError),
      pk.packet_type = PACKET_TYPE_CAMERA_STATUS →
      CameraStatus.from_packet pk = .error e →
      p.handle_packet pk = (p, .error e)) ∧
    (∀ (p : CameraPlugin) (pk : Packet) (e : ProtocolError),
      pk.packet_type = PACKET_TYPE_CAMERA_CAPABILITY →
      CameraCapability.from_packet pk = .error e →
      p.handle_packet pk = (p, .error e)) := by
  refine ⟨?_, ?_, ?_, ?_, ?_⟩
  · intro pk o hb hl
    refine ⟨"missing field status", ?_⟩
    simp [CameraStatus.from_packet, hb, CameraStatus.fromJson, reqField, hl]
  · intro pk o n hb hl
    refine ⟨"expected StreamingStatus", ?_⟩
    simp [CameraStatus.from_packet, hb, CameraStatus.fromJson, reqField, hl,
      streamingStatus_fromJson_num]
  · intro pk o hb hl
    refine ⟨"missing field cameras", ?_⟩
    simp [CameraCapability.from_packet, hb, CameraCapability.fromJson, reqField, hl]
  · intro p pk e ht he
    simp [CameraPlugin.handle_packet, ht, PACKET_TYPE_CAMERA_STATUS,
      PACKET_TYPE_CAMERA_CAPABILITY, CameraPlugin.handle_status, he]
  · intro p pk e ht he
    simp [CameraPlugin.handle_packet, ht, PACKET_TYPE_CAMERA_CAPABILITY,
      CameraPlugin.handle_capability, he]

/-- Claim C2 witness: the amended claim at the concrete malformed
status packet. -/
theorem C2_parse_failure_isolated_witness :
    (∃ m, CameraStatus.from_packet pkBadStatus = .error (.invalidPacket m)) ∧
    CameraPlugin.new.handle_packet pkBadStatus =
      (CameraPlugin.new, .error (.invalidPacket "missing field status")) :=
  ⟨C2_parse_failure_isolated.1 pkBadStatus [] rfl rfl,
   C2_parse_failure_isolated.2.2.2.1 CameraPlugin.new pkBadStatus
     (.invalidPacket "missing field status") rfl (by rfl)⟩

/-- Claim C3: handling a well-formed status message replaces the stored
status wholesale and derives is_streaming from the message, true
exactly when its status is Streaming. -/
theorem C3_status_replacement (p : CameraPlugin) (pk : Packet) (s : CameraStatus)
    (ht : pk.packet_type = PACKET_TYPE_CAMERA_STATUS)
    (hs : CameraStatus.from_packet pk = .ok s) :
    (p.handle_packet pk).1.streaming_status = some s ∧
    ((p.handle_packet pk).1.is_streaming = true ↔ s.status = .streaming) ∧
    (p.handle_packet pk).1.is_streaming = (s.status == StreamingStatus.streaming) := by
  have hd : p.handle_packet pk = p.handle_status pk := by
    simp [CameraPlugin.handle_packet, ht, PACKET_TYPE_CAMERA_STATUS,
      PACKET_TYPE_CAMERA_CAPABILITY]
  rw [hd]
  simp [CameraPlugin.handle_status, hs]

/-- Claim C3 witness: a concrete streaming status message sets the
stored status and the streaming flag. -/
theorem C3_status_replacement_witness :
    (CameraPlugin.new.handle_packet statusW.to_packet).1.streaming_status = some statusW ∧
    ((CameraPlugin.new.handle_packet statusW.to_packet).1.is_streaming = true ↔
      statusW.status = .streaming) :=
  ⟨(C3_status_replacement CameraPlugin.new statusW.to_packet statusW rfl (by rfl)).1,
   (C3_status_replacement CameraPlugin.new statusW.to_packet statusW rfl (by rfl)).2.1⟩

/-- Claim C4: on a freshly created decoder, decode fails with
NeedMoreData for every buffer and every possible answer of the
underlying core, leaves the state unchanged, and afterwards the
decoder is uninitialized with a zero frame counter and no
dimensions. -/
theorem C4_decode_uninitialized (buf : List Nat) (ts : Nat) (core : CoreResult) :
    H264Decoder.new.decode buf ts core = (H264Decoder.new, .error .needMoreData) ∧
    (H264Decoder.new.decode buf ts core).1.is_initialized = false ∧
    (H264Decoder.new.decode buf ts core).1.frames_decoded = 0 ∧
    (H264Decoder.new.decode buf ts core).1.dimensions = none :=
  ⟨rfl, rfl, rfl, rfl⟩

/-- Claim C5: shutdown forces is_streaming to false and clears the
stored status, from any prior state. -/
theorem C5_shutdown_clears (p : CameraPlugin) :
    (p.shutdown).1.is_streaming = false ∧ (p.shutdown).1.streaming_status = none :=
  ⟨rfl, rfl⟩

/-- Claim C6: handling a frame-header packet mutates no session state:
every stored field is unchanged, whatever the parse outcome. -/
theorem C6_frame_pure (p : CameraPlugin) (pk : Packet)
    (ht : pk.packet_type = PACKET_TYPE_CAMERA_FRAME) :
    (p.handle_packet pk).1.remote_capabilities = p.remote_capabilities ∧
    (p.handle_packet pk).1.streaming_status = p.streaming_status ∧
    (p.handle_packet pk).1.is_streaming = p.is_streaming ∧
    (p.handle_packet pk).1.current_settings = p.current_settings ∧
    (p.handle_packet pk).1 = p := by
  have hd : (p.handle_packet pk).1 = p := by
    simp [CameraPlugin.handle_packet, ht, PACKET_TYPE_CAMERA_FRAME,
      PACKET_TYPE_CAMERA_CAPABILITY, PACKET_TYPE_CAMERA_STATUS,
      CameraPlugin.handle_frame]
  rw [hd]
  exact ⟨rfl, rfl, rfl, rfl, rfl⟩

/-- Claim C6 witness: a concrete frame-header packet leaves the fresh
plugin state untouched. -/
theorem C6_frame_pure_witness :
    (CameraPlugin.new.handle_packet frameW.to_packet).1 = CameraPlugin.new :=
  (C6_frame_pure CameraPlugin.new frameW.to_packet rfl).2.2.2.2

/-- Claim C7: the FrameType byte mapping is a bijection over the code
space one, two, three: the three bytes map to the three pairwise
distinct variants, every variant is hit, and every other byte value,
two hundred fifty five included, has no mapping. -/
theorem C7_frame_type_bijection :
    FrameType.from_u8 1 = some .spsPps ∧
    FrameType.from_u8 2 = some .iFrame ∧
    FrameType.from_u8 3 = some .pFrame ∧
    ((FrameType.spsPps == FrameType.iFrame) = false ∧
      (FrameType.spsPps == FrameType.pFrame) = false ∧
      (FrameType.iFrame == FrameType.pFrame) = false) ∧
    (∀ t : FrameType, ∃ b : Fin 256, FrameType.from_u8 b.val = some t) ∧
    (∀ b : Fin 256, (FrameType.from_u8 b.val).isSome =
      (decide (b.val = 1) || decide (b.val = 2) || decide (b.val = 3))) ∧
    FrameType.from_u8 255 = none := by decide

/-- Claim C8: for u32 width and height, pixels equals the exact product
because the multiplication happens in the 64 bit domain. -/
theorem C8_pixels_no_overflow (w h : Nat) (hw : w < 4294967296) (hh : h < 4294967296) :
    Resolution.pixels ⟨w, h⟩ = w * h := by
  have h1 : w ≤ 4294967295 := by omega
  have h2 : h ≤ 4294967295 := by omega
  have hm : w * h ≤ 4294967295 * 4294967295 := Nat.mul_le_mul h1 h2
  unfold Resolution.pixels
  apply Nat.mod_eq_of_lt
  calc w * h ≤ 4294967295 * 4294967295 := hm
    _ < 18446744073709551616 := by norm_num

/-- Claim C8 witness: the largest pair named by the specification. -/
theorem C8_pixels_no_overflow_witness :
    Resolution.pixels ⟨65535, 65535⟩ = 65535 * 65535 :=
  C8_pixels_no_overflow 65535 65535 (by decide) (by decide)

theorem applyOp_preserves_current_settings (p : CameraPlugin) (op : PluginOp) :
    (p.applyOp op).current_settings = p.current_settings := by
  cases op with
  | handle pk =>
      show (p.handle_packet pk).1.current_settings = p.current_settings
      unfold CameraPlugin.handle_packet
      split
      · unfold CameraPlugin.handle_capability
        cases CameraCapability.from_packet pk <;> rfl
      · split
        · unfold CameraPlugin.handle_status
          cases CameraStatus.from_packet pk <;> rfl
        · split
          · rfl
          · rfl
  | initOp => rfl
  | shutdownOp => rfl
  | createStart s => rfl
  | createStop => rfl
  | createSettings s => rfl

theorem run_preserves_current_settings (p : CameraPlugin) (ops : List PluginOp) :
    (p.run ops).current_settings = p.current_settings := by
  induction ops generalizing p with
  | nil => rfl
  | cons op ops ih =>
      show ((p.applyOp op).run ops).current_settings = p.current_settings
      rw [ih (p.applyOp op), applyOp_preserves_current_settings]

/-- Claim C9: no operation sequence on a fresh plugin ever stores start
settings: current_settings stays none, and create_start_packet only
builds the packet from its argument without recording it. -/
theorem C9_current_settings_never_stored :
    (∀ ops : List PluginOp, (CameraPlugin.new.run ops).current_settings = none) ∧
    (∀ (p : CameraPlugin) (s : CameraStart), p.create_start_packet s = s.to_packet) := by
  constructor
  · intro ops
    rw [run_preserves_current_settings]
    rfl
  · intro p s
    rfl

/-- Claim C10: to_packet declares the payload size as the u64 size
field reinterpreted as a signed 64 bit integer: equal to size below
two to the sixty three, and negative, shifted down by two to the
sixty four, at and above it. -/
theorem C10_payload_size_cast (f : CameraFrame) (h : f.size < 18446744073709551616) :
    (f.to_packet).payload_size = some (i64OfU64 f.size) ∧
    (f.size < 9223372036854775808 →
      (f.to_packet).payload_size = some ((f.size : Int))) ∧
    (9223372036854775808 ≤ f.size →
      (f.to_packet).payload_size = some ((f.size : Int) - 18446744073709551616) ∧
      (f.size : Int) - 18446744073709551616 < 0) := by
  have hm : f.size % 18446744073709551616 = f.size := Nat.mod_eq_of_lt h
  refine ⟨rfl, ?_, ?_⟩
  · intro hs
    have hc : i64OfU64 f.size = (f.size : Int) := by
      unfold i64OfU64
      rw [hm, if_pos hs]
      simp
    rw [show (f.to_packet).payload_size = some (i64OfU64 f.size) from rfl, hc]
  · intro hs
    have hc : i64OfU64 f.size = (f.size : Int) - 18446744073709551616 := by
      unfold i64OfU64
      rw [hm, if_neg (by omega)]
      simp
    refine ⟨?_, by omega⟩
    rw [show (f.to_packet).payload_size = some (i64OfU64 f.size) from rfl, hc]

/-- The frame header with the smallest size value that no longer fits
a signed 64 bit integer, used to witness claim C10. -/
def frameBig : CameraFrame := ⟨.iFrame, 0, 0, 9223372036854775808⟩

/-- Claim C10 witness: at size two to the sixty three the declared
payload size is the negative two's-complement reinterpretation. -/
theorem C10_payload_size_cast_witness :
    (frameBig.to_packet).payload_size = some (i64OfU64 frameBig.size) ∧
    (frameBig.to_packet).payload_size =
      some ((frameBig.size : Int) - 18446744073709551616) :=
  ⟨(C10_payload_size_cast frameBig (by decide)).1,
   ((C10_payload_size_cast frameBig (by decide)).2.2 (by decide)).1⟩
